import Mathlib

/-!
Verification development for the `jw` Jenkins job-monitoring daemon.

The Go sources are shallowly embedded as executable Lean definitions:

* `Job`, `Config` — `pkg/config` data model (jobs keyed by URL, modelled as an
  association list mirroring the Go `map[string]Job`).
* `EventKind`, `JobEvent` — the worker event taxonomy from `pkg/monitor`.
* `handleJobStatusError`, `checkJobStatus`, `monitorLoop`, `MonitorJob` — the
  per-job polling worker from `pkg/monitor` (the event-emitting variant); the
  probe itself (`jenkins.GetJobStatus`) is abstracted as a `ProbeResult`: either
  a decoded `JobStatus` with its HTTP code, or a transport/HTTP failure carrying
  the code (0 when no response was obtained) and error metadata.
* `StoreState`, `storeUpdate`, `updateJobCheckStatus` — the durable store and
  the `config.Update` read-modify-write primitive (a write counter records each
  save performed by `Update`).
* `DaemonState`, `handleJobEvent`, `removeJob`, `reloadConfigAndJobs`,
  `daemonStep`, `daemonRun`, `startDaemonInit` — the daemon controller and
  event router from `cmd/daemon.go`.

Time, logging and OS signal plumbing are abstracted away; everything that
decides classification, store mutation, the active-job set and the control
loop's exit is embedded faithfully branch by branch.
-/

/-- A tracked job, mirroring `config.Job` (`pkg/config`). -/
structure Job where
  StartTime : Nat
  URL : String
  LastCheckFailed : Bool
deriving DecidableEq, Repr

/-- Association-list lookup mirroring Go map indexing `m[k]` with `ok` flag. -/
def lookupJob : List (String × Job) → String → Option Job
  | [], _ => none
  | (k, v) :: rest, u => if k = u then some v else lookupJob rest u

/-- Association-list assignment mirroring Go map assignment `m[k] = v`. -/
def setJob : List (String × Job) → String → Job → List (String × Job)
  | [], u, j => [(u, j)]
  | (k, v) :: rest, u, j =>
    if k = u then (u, j) :: rest else (k, v) :: setJob rest u j

/-- Association-list deletion mirroring Go `delete(m, k)`. -/
def eraseJob : List (String × Job) → String → List (String × Job)
  | [], _ => []
  | (k, v) :: rest, u =>
    if k = u then eraseJob rest u else (k, v) :: eraseJob rest u

/-- The persisted configuration, mirroring `config.Config` (the
`UpgradeState` field plays no role in the claims and is omitted). -/
structure Config where
  Jobs : List (String × Job)
deriving DecidableEq, Repr

/-- `(c *Config).UpdateJobCheckStatus` from `pkg/config`: updates the check
status for a job, returning whether the status changed.  On an absent key it
returns `false` and leaves the config untouched. -/
def Config.UpdateJobCheckStatus (c : Config) (jobURL : String) (failed : Bool) :
    Config × Bool :=
  match lookupJob c.Jobs jobURL with
  | some job =>
    if job.LastCheckFailed == failed then (c, false)
    else ({ c with Jobs := setJob c.Jobs jobURL { job with LastCheckFailed := failed } }, true)
  | none => (c, false)

/-- `monitor.EventKind`: what happened during a monitoring check. -/
inductive EventKind where
  | EventStatusChecked
  | EventFinished
  | EventNotFound
  | EventUnauthorized
  | EventClientError
  | EventDNSError
  | EventError
deriving DecidableEq, Repr

/-- Metadata of the Go `error` value attached to a failed probe:
whether `errors.As(err, &dnsErr) && dnsErr.IsNotFound` holds. -/
structure GoError where
  dnsNotFound : Bool
deriving DecidableEq, Repr

/-- `monitor.JobEvent`: emitted by `MonitorJob` to report status changes. -/
structure JobEvent where
  JobURL : String
  JobName : String
  Kind : EventKind
  Result : String
  Failed : Bool
  Error : Option GoError
deriving DecidableEq, Repr

/-- `jenkins.JobStatus` as decoded from the Jenkins JSON API. -/
structure JobStatus where
  Building : Bool
  Result : String
  Timestamp : Int
deriving DecidableEq, Repr

/-- One call to `jenkins.GetJobStatus`: either a decoded status with the HTTP
code, or a failure carrying the HTTP code (0 when no response was obtained,
e.g. a connection-level failure) and the error metadata. -/
inductive ProbeResult where
  | ok (status : JobStatus) (code : Int)
  | fail (code : Int) (e : GoError)
deriving DecidableEq, Repr

/-- `monitor.handleJobStatusError`: classifies an error from
`jenkins.GetJobStatus` into exactly one emitted event and returns whether
monitoring should stop.  Embedded branch by branch from `pkg/monitor`. -/
def handleJobStatusError (e : GoError) (statusCode : Int)
    (jobURL jobNameSafe : String) : List JobEvent × Bool :=
  if statusCode = 404 then
    ([{ JobURL := jobURL, JobName := jobNameSafe, Kind := .EventNotFound,
        Result := "", Failed := true, Error := some e }], true)
  else if statusCode = 401 ∨ statusCode = 403 then
    ([{ JobURL := jobURL, JobName := jobNameSafe, Kind := .EventUnauthorized,
        Result := "", Failed := true, Error := some e }], true)
  else if 400 ≤ statusCode ∧ statusCode < 500 ∧ statusCode ≠ 429 then
    ([{ JobURL := jobURL, JobName := jobNameSafe, Kind := .EventClientError,
        Result := "", Failed := true, Error := some e }], true)
  else if e.dnsNotFound then
    ([{ JobURL := jobURL, JobName := jobNameSafe, Kind := .EventDNSError,
        Result := "", Failed := true, Error := some e }], true)
  else
    ([{ JobURL := jobURL, JobName := jobNameSafe, Kind := .EventError,
        Result := "", Failed := true, Error := some e }], false)

/-- `monitor.checkJobStatus`: performs one probe, emits exactly one event, and
returns whether monitoring should stop. -/
def checkJobStatus (p : ProbeResult) (jobURL jobNameSafe : String) :
    List JobEvent × Bool :=
  match p with
  | .fail code e => handleJobStatusError e code jobURL jobNameSafe
  | .ok status _ =>
    if !status.Building then
      ([{ JobURL := jobURL, JobName := jobNameSafe, Kind := .EventFinished,
          Result := status.Result, Failed := false, Error := none }], true)
    else
      ([{ JobURL := jobURL, JobName := jobNameSafe, Kind := .EventStatusChecked,
          Result := "", Failed := status.Result == "FAILURE", Error := none }], false)

/-- Default poll interval (`pollingInterval = 30 * time.Second`), in
nanoseconds as a Go `time.Duration`. -/
def pollingInterval : Int := 30 * 1000000000

/-- Derivation of the human-readable job name from the URL:
`strings.Split(jobURL, "/job/")` followed by taking the last element. -/
def jobNameSafe (jobURL : String) : String :=
  (jobURL.splitOn "/job/").getLastD ""

/-- The worker's polling loop, abstracted over the sequence of probe results
the remote system would return: events are emitted check by check and the loop
exits after the first check that reports `shouldStop`. -/
def monitorLoop : List ProbeResult → String → String → List JobEvent
  | [], _, _ => []
  | p :: rest, u, n =>
    let r := checkJobStatus p u n
    if r.2 then r.1 else r.1 ++ monitorLoop rest u n

/-- `monitor.MonitorJob`: substitutes the default interval when
`pollInterval <= 0`, derives the job name, and runs the polling loop.  The
returned pair is the effective ticker interval and the emitted event trace. -/
def MonitorJob (jobURL : String) (pollInterval : Int)
    (probes : List ProbeResult) : Int × List JobEvent :=
  let interval := if pollInterval ≤ 0 then pollingInterval else pollInterval
  (interval, monitorLoop probes jobURL (jobNameSafe jobURL))

/-- The durable store as seen through the `config.Update` primitive: the job
map currently on disk, plus a counter of the saves (file writes) performed. -/
structure StoreState where
  jobs : List (String × Job)
  writes : Nat
deriving DecidableEq, Repr

/-- `config.Update` (`pkg/config`): atomic read-modify-write under the file
lock — load the map from disk, apply the mutator, and unconditionally save the
result back (one file write per call). -/
def storeUpdate (s : StoreState)
    (f : List (String × Job) → List (String × Job)) : StoreState :=
  { jobs := f s.jobs, writes := s.writes + 1 }

/-- The mutator passed by `cmd/daemon.go`'s `updateJobCheckStatus`: flip the
job's `LastCheckFailed` flag in the map only when the value actually changed;
do nothing when the job is absent. -/
def updateJobCheckStatusMutator (jobURL : String) (failed : Bool)
    (jobs : List (String × Job)) : List (String × Job) :=
  match lookupJob jobs jobURL with
  | some job =>
    if job.LastCheckFailed ≠ failed then
      setJob jobs jobURL { job with LastCheckFailed := failed }
    else jobs
  | none => jobs

/-- `cmd/daemon.go` `updateJobCheckStatus`: runs the mutator through the
store's atomic update primitive. -/
def updateJobCheckStatus (jobURL : String) (failed : Bool)
    (s : StoreState) : StoreState :=
  storeUpdate s (updateJobCheckStatusMutator jobURL failed)

/-- The daemon controller's state: the durable store, the active-job set
(keys of the `activeJobs` map — one entry per live worker stop channel), the
notifications sent so far (title, body, link URL), and the number of times the
maintenance hook (`pidfile.CheckAndRestore`) has run. -/
structure DaemonState where
  store : StoreState
  active : List String
  notifications : List (String × String × String)
  hookRuns : Nat
deriving DecidableEq, Repr

/-- `cmd/daemon.go` `removeJob`: delete the job from the store via the atomic
update, then remove it from the active set (closing its stop channel). -/
def removeJob (jobURL : String) (s : DaemonState) : DaemonState :=
  { s with
    store := storeUpdate s.store (fun jobs => eraseJob jobs jobURL),
    active := s.active.filter (fun u => decide (u ≠ jobURL)) }

/-- `cmd/daemon.go` `handleJobEvent`: the event router's dispatch on the event
kind, embedded case by case from the Go `switch`.  Event kinds without a
`case` arm (`EventUnauthorized`, `EventClientError`, `EventDNSError`) fall
through the switch and leave the state untouched. -/
def handleJobEvent (ev : JobEvent) (s : DaemonState) : DaemonState :=
  match ev.Kind with
  | .EventStatusChecked | .EventError =>
    { s with store := updateJobCheckStatus ev.JobURL ev.Failed s.store }
  | .EventFinished =>
    let title := if ev.Result = "FAILURE" then "Jenkins Job Failed"
                 else "Jenkins Job Completed"
    let body := "Job: " ++ ev.JobName ++ "\nStatus: " ++ ev.Result
    removeJob ev.JobURL
      { s with notifications := s.notifications ++ [(title, body, ev.JobURL)] }
  | .EventNotFound =>
    let body := "Job: " ++ ev.JobName ++ "\nURL returned 404. Removing from monitor."
    removeJob ev.JobURL
      { s with notifications :=
          s.notifications ++ [("Jenkins Job Not Found", body, ev.JobURL)] }
  | .EventUnauthorized | .EventClientError | .EventDNSError => s

/-- Result of one reconciliation pass: the new active set, the workers
stopped, and the workers spawned. -/
structure ReconcileResult where
  active : List String
  stopped : List String
  spawned : List String
deriving DecidableEq, Repr

/-- `cmd/daemon.go` `reloadConfigAndJobs`: load the job list from the store
(`none` models a failed `store.Load()`, which logs and returns, leaving the
active set untouched); stop every active worker whose URL is no longer in the
loaded list; spawn a worker for every loaded URL with no active worker. -/
def reloadConfigAndJobs (loadResult : Option (List String))
    (active : List String) : ReconcileResult :=
  match loadResult with
  | none => { active := active, stopped := [], spawned := [] }
  | some storeKeys =>
    { active := active.filter (fun u => decide (u ∈ storeKeys)) ++
                storeKeys.filter (fun u => decide (u ∉ active)),
      stopped := active.filter (fun u => decide (u ∉ storeKeys)),
      spawned := storeKeys.filter (fun u => decide (u ∉ active)) }

/-- The four inputs the controller's `select` multiplexes: SIGHUP (reload,
carrying the result of the store load it triggers), SIGINT/SIGTERM
(shutdown), a job event arrival, and the maintenance ticker. -/
inductive DaemonInput where
  | sigReload (loadResult : Option (List String))
  | sigShutdown
  | jobEvent (ev : JobEvent)
  | tick
deriving DecidableEq, Repr

/-- Whether the controller's loop keeps running or returns after servicing
one input. -/
inductive StepResult where
  | keepRunning (s : DaemonState)
  | exited (s : DaemonState)
deriving DecidableEq, Repr

/-- The state carried by a step result. -/
def StepResult.state : StepResult → DaemonState
  | .keepRunning s => s
  | .exited s => s

/-- One iteration of `startDaemon`'s `select` loop, servicing a single input:
SIGHUP re-runs reconciliation; SIGINT/SIGTERM closes every stop channel and
returns; a job event is dispatched to the router; the ticker runs the
maintenance hook (`pidfile.CheckAndRestore`) and then returns iff the active
set is empty. -/
def daemonStep (s : DaemonState) : DaemonInput → StepResult
  | .sigReload loadResult =>
    .keepRunning { s with active := (reloadConfigAndJobs loadResult s.active).active }
  | .sigShutdown => .exited s
  | .jobEvent ev => .keepRunning (handleJobEvent ev s)
  | .tick =>
    let s' := { s with hookRuns := s.hookRuns + 1 }
    if s'.active.isEmpty then .exited s' else .keepRunning s'

/-- The controller loop run over a sequence of inputs, returning the final
state and whether the loop returned (as opposed to running out of script). -/
def daemonRun (s : DaemonState) : List DaemonInput → DaemonState × Bool
  | [] => (s, false)
  | i :: rest =>
    match daemonStep s i with
    | .exited s' => (s', true)
    | .keepRunning s' => daemonRun s' rest

/-- `startDaemon`'s startup sequence around the main loop: the initial
`store.Load()` whose failure is fatal (`logger.Fatalf` aborts startup, modelled
as `none`), followed by the first reconciliation (which performs its own
load). -/
def startDaemonInit (initialLoad : Option Unit)
    (reloadLoad : Option (List String)) : Option ReconcileResult :=
  match initialLoad with
  | none => none
  | some _ => some (reloadConfigAndJobs reloadLoad [])

/-- C2 counterexample: HTTP 429 lies in the 4xx range and is none of
401/403/404, yet the classifier emits a transient `EventError` (not
`EventClientError`) and the worker keeps polling (`shouldStop = false`). -/
theorem c2_429_is_transient :
    ((400:Int) ≤ 429 ∧ (429:Int) < 500 ∧ (429:Int) ≠ 401 ∧ (429:Int) ≠ 403 ∧ (429:Int) ≠ 404)
    ∧ (handleJobStatusError { dnsNotFound := false } 429 "http://ci/job/a" "a").2 = false
    ∧ ((handleJobStatusError { dnsNotFound := false } 429 "http://ci/job/a" "a").1.map
        JobEvent.Kind) = [EventKind.EventError] := by
  refine ⟨by decide, rfl, rfl⟩

/-- C2 (amended): for every HTTP transport status code in the 4xx range other
than 401, 403, 404 and 429, the outcome is the terminal `EventClientError`
variant: exactly one client-error event is emitted and the worker stops
polling. -/
theorem c2_client_error_classification (code : Int) (e : GoError) (u n : String)
    (h1 : 400 ≤ code) (h2 : code < 500) (h3 : code ≠ 401) (h4 : code ≠ 403)
    (h5 : code ≠ 404) (h6 : code ≠ 429) :
    handleJobStatusError e code u n =
      ([{ JobURL := u, JobName := n, Kind := .EventClientError, Result := "",
          Failed := true, Error := some e }], true) := by
  unfold handleJobStatusError
  rw [if_neg h5, if_neg (by rintro (h | h) <;> [exact h3 h; exact h4 h]),
    if_pos ⟨h1, h2, h6⟩]

/-- Witness for `c2_client_error_classification` at status code 422. -/
theorem c2_client_error_classification_witness :
    handleJobStatusError { dnsNotFound := false } 422 "http://ci/job/a" "a" =
      ([{ JobURL := "http://ci/job/a", JobName := "a", Kind := .EventClientError,
          Result := "", Failed := true, Error := some { dnsNotFound := false } }], true) :=
  c2_client_error_classification 422 { dnsNotFound := false } "http://ci/job/a" "a"
    (by decide) (by decide) (by decide) (by decide) (by decide) (by decide)

/-- C3 counterexample: a connection-level transport failure that is not a DNS
name-not-found error (no HTTP response, status code 0 — e.g. connection
refused) is classified as the transient `EventError`, and the worker keeps
polling, contradicting the claim that every connection-level failure is the
terminal Unreachable variant. -/
theorem c3_connection_failure_is_transient :
    ((handleJobStatusError { dnsNotFound := false } 0 "http://ci/job/a" "a").1.map
      JobEvent.Kind) = [EventKind.EventError]
    ∧ (handleJobStatusError { dnsNotFound := false } 0 "http://ci/job/a" "a").2 = false := by
  exact ⟨rfl, rfl⟩

/-- C3 (amended): among transport-level failures with no HTTP response
(status code 0), exactly the DNS name-not-found failures are classified as the
terminal `EventDNSError` variant (one terminal event, polling stops); every
other connection-level failure is the transient `EventError` and the worker
retries on the next interval. -/
theorem c3_dns_not_found_is_terminal (e : GoError) (u n : String) :
    (e.dnsNotFound = true →
      handleJobStatusError e 0 u n =
        ([{ JobURL := u, JobName := n, Kind := .EventDNSError, Result := "",
            Failed := true, Error := some e }], true))
    ∧ (e.dnsNotFound = false →
      handleJobStatusError e 0 u n =
        ([{ JobURL := u, JobName := n, Kind := .EventError, Result := "",
            Failed := true, Error := some e }], false)) := by
  constructor <;> intro h <;>
    simp [handleJobStatusError, h]

/-- Witness for `c3_dns_not_found_is_terminal` at a DNS name-not-found
failure. -/
theorem c3_dns_not_found_is_terminal_witness :
    handleJobStatusError { dnsNotFound := true } 0 "http://ci/job/a" "a" =
      ([{ JobURL := "http://ci/job/a", JobName := "a", Kind := .EventDNSError,
          Result := "", Failed := true, Error := some { dnsNotFound := true } }], true) :=
  (c3_dns_not_found_is_terminal { dnsNotFound := true } "http://ci/job/a" "a").1 rfl

/-- C4: for every successful probe whose status has `Building = false`, the
worker emits exactly one `EventFinished` event carrying the record's result
string — whatever that string is — and stops polling immediately (no later
probe is consumed); `Building = true` is the only non-terminal successful
outcome, producing a routine `EventStatusChecked` and continued polling. -/
theorem c4_any_non_building_result_is_finished (st : JobStatus) (code : Int)
    (u n : String) (hb : st.Building = false) :
    checkJobStatus (.ok st code) u n =
      ([{ JobURL := u, JobName := n, Kind := .EventFinished, Result := st.Result,
          Failed := false, Error := none }], true)
    ∧ (∀ rest : List ProbeResult,
        monitorLoop (.ok st code :: rest) u n =
          [{ JobURL := u, JobName := n, Kind := .EventFinished, Result := st.Result,
             Failed := false, Error := none }])
    ∧ (∀ st2 : JobStatus, st2.Building = true →
        checkJobStatus (.ok st2 code) u n =
          ([{ JobURL := u, JobName := n, Kind := .EventStatusChecked, Result := "",
              Failed := st2.Result == "FAILURE", Error := none }], false)) := by
  refine ⟨by simp [checkJobStatus, hb], ?_, ?_⟩
  · intro rest
    simp [monitorLoop, checkJobStatus, hb]
  · intro st2 h2
    simp [checkJobStatus, h2]

/-- Witness for `c4_any_non_building_result_is_finished` at an unrecognized
result string. -/
theorem c4_any_non_building_result_is_finished_witness :
    checkJobStatus (.ok { Building := false, Result := "UNSTABLE", Timestamp := 0 } 200)
        "http://ci/job/a" "a" =
      ([{ JobURL := "http://ci/job/a", JobName := "a", Kind := .EventFinished,
          Result := "UNSTABLE", Failed := false, Error := none }], true) :=
  (c4_any_non_building_result_is_finished
    { Building := false, Result := "UNSTABLE", Timestamp := 0 } 200
    "http://ci/job/a" "a" rfl).1

/-- C9: calling the worker with `pollInterval ≤ 0` substitutes the 30-second
default and the whole run is identical to a run invoked with that default; in
particular the effective ticker interval is strictly positive (no
busy-looping). -/
theorem c9_nonpositive_interval_uses_default (p : Int) (hp : p ≤ 0)
    (jobURL : String) (probes : List ProbeResult) :
    MonitorJob jobURL p probes = MonitorJob jobURL pollingInterval probes
    ∧ (MonitorJob jobURL p probes).1 = pollingInterval
    ∧ 0 < (MonitorJob jobURL p probes).1 := by
  have hd : ¬ (pollingInterval ≤ 0) := by decide
  have h1 : MonitorJob jobURL p probes = MonitorJob jobURL pollingInterval probes := by
    unfold MonitorJob
    rw [if_pos hp, if_neg hd]
  have h2 : (MonitorJob jobURL p probes).1 = pollingInterval := by
    unfold MonitorJob
    rw [if_pos hp]
  refine ⟨h1, h2, ?_⟩
  rw [h2]
  decide

/-- Witness for `c9_nonpositive_interval_uses_default` at `pollInterval = -5`. -/
theorem c9_nonpositive_interval_uses_default_witness :
    MonitorJob "http://ci/job/a" (-5) [] = MonitorJob "http://ci/job/a" pollingInterval []
    ∧ (MonitorJob "http://ci/job/a" (-5) []).1 = pollingInterval
    ∧ 0 < (MonitorJob "http://ci/job/a" (-5) []).1 :=
  c9_nonpositive_interval_uses_default (-5) (by decide) "http://ci/job/a" []

/-- Concrete tracked job used to exercise the event router on terminal error
events. -/
def alphaJob : Job :=
  { StartTime := 0, URL := "http://ci/job/alpha", LastCheckFailed := false }

/-- Daemon state tracking `alphaJob`: the job is in the store and its worker
is in the active set; no notifications sent yet. -/
def alphaState : DaemonState :=
  { store := { jobs := [("http://ci/job/alpha", alphaJob)], writes := 0 },
    active := ["http://ci/job/alpha"],
    notifications := [], hookRuns := 0 }

/-- The terminal event a worker emits for `alphaJob` after a 401 response. -/
def alphaUnauthorizedEvent : JobEvent :=
  { JobURL := "http://ci/job/alpha", JobName := "alpha", Kind := .EventUnauthorized,
    Result := "", Failed := true, Error := some { dnsNotFound := false } }

/-- C1: what the router actually does on the terminal error kinds.  For
`EventUnauthorized`, `EventClientError` and `EventDNSError` delivered to
`handleJobEvent`, no `switch` case matches: the state is returned unchanged,
so the job stays in the durable store, stays in the active set (its stop
channel is never closed), and no notification is sent — contradicting the
claimed notify-and-remove behaviour that `EventFinished`/`EventNotFound`
receive. -/
theorem c1_terminal_error_events_are_dropped :
    handleJobEvent alphaUnauthorizedEvent alphaState = alphaState
    ∧ handleJobEvent { alphaUnauthorizedEvent with Kind := .EventClientError } alphaState
        = alphaState
    ∧ handleJobEvent { alphaUnauthorizedEvent with Kind := .EventDNSError } alphaState
        = alphaState
    ∧ lookupJob (handleJobEvent alphaUnauthorizedEvent alphaState).store.jobs
        "http://ci/job/alpha" = some alphaJob
    ∧ "http://ci/job/alpha" ∈ (handleJobEvent alphaUnauthorizedEvent alphaState).active
    ∧ (handleJobEvent alphaUnauthorizedEvent alphaState).notifications = [] := by
  refine ⟨rfl, rfl, rfl, rfl, ?_, rfl⟩
  show "http://ci/job/alpha" ∈ alphaState.active
  simp [alphaState]

/-- Concrete tracked job used for the store-write counting counterexample. -/
def gammaJob : Job :=
  { StartTime := 0, URL := "http://ci/job/gamma", LastCheckFailed := false }

/-- Daemon state tracking `gammaJob`, with zero store writes so far. -/
def gammaState : DaemonState :=
  { store := { jobs := [("http://ci/job/gamma", gammaJob)], writes := 0 },
    active := ["http://ci/job/gamma"],
    notifications := [], hookRuns := 0 }

/-- A routine check reporting `Failed = false` for the tracked job `gamma`. -/
def gammaCheckEvent : JobEvent :=
  { JobURL := "http://ci/job/gamma", JobName := "gamma", Kind := .EventStatusChecked,
    Result := "", Failed := false, Error := none }

/-- C5 counterexample: two consecutive routine-check events carrying the same
failed flag (both `false`, matching the stored value) produce two store writes,
because `config.Update` saves unconditionally after running the mutator — the
claimed at-most-one-write suppression does not hold. -/
theorem c5_same_flag_twice_writes_twice :
    (handleJobEvent gammaCheckEvent (handleJobEvent gammaCheckEvent gammaState)).store.writes = 2
    ∧ ¬ ((handleJobEvent gammaCheckEvent
          (handleJobEvent gammaCheckEvent gammaState)).store.writes ≤ 1) := by
  refine ⟨by decide, by decide⟩

/-- If a job's flag was just set by the mutator, running the same mutator
again changes nothing. -/
theorem lookupJob_setJob (jobs : List (String × Job)) (u : String) (j : Job) :
    lookupJob (setJob jobs u j) u = some j := by
  induction jobs with
  | nil => simp [setJob, lookupJob]
  | cons head rest ih =>
    obtain ⟨k, v⟩ := head
    by_cases hk : k = u
    · simp [setJob, lookupJob, hk]
    · simp [setJob, lookupJob, hk, ih]

/-- The daemon's check-status mutator is idempotent on the job map. -/
theorem updateJobCheckStatusMutator_idem (u : String) (f : Bool)
    (jobs : List (String × Job)) :
    updateJobCheckStatusMutator u f (updateJobCheckStatusMutator u f jobs) =
      updateJobCheckStatusMutator u f jobs := by
  cases h : lookupJob jobs u with
  | none =>
    simp only [updateJobCheckStatusMutator, h]
  | some job =>
    by_cases hf : job.LastCheckFailed ≠ f
    · simp only [updateJobCheckStatusMutator, h, if_pos hf, lookupJob_setJob]
      simp
    · simp only [updateJobCheckStatusMutator, h, if_neg hf]

/-- C5 (amended): the router's routine-check handling applies the atomic
read-modify-write whose mutator changes the job map only when the stored flag
actually differs, so the second of two consecutive routine-check events with
the same failed value leaves the stored job map unchanged; but `config.Update`
performs a save on every call, so the two events cost exactly two store
writes (the second rewriting identical content), not at most one. -/
theorem c5_second_update_is_content_noop (s : DaemonState) (ev : JobEvent)
    (h : ev.Kind = EventKind.EventStatusChecked ∨ ev.Kind = EventKind.EventError) :
    (handleJobEvent ev (handleJobEvent ev s)).store.jobs =
      (handleJobEvent ev s).store.jobs
    ∧ (handleJobEvent ev s).store.writes = s.store.writes + 1
    ∧ (handleJobEvent ev (handleJobEvent ev s)).store.writes = s.store.writes + 2 := by
  have hstep : ∀ t : DaemonState,
      handleJobEvent ev t =
        { t with store := updateJobCheckStatus ev.JobURL ev.Failed t.store } := by
    intro t
    rcases h with h | h <;> simp only [handleJobEvent, h]
  simp only [hstep]
  refine ⟨?_, rfl, rfl⟩
  simp only [updateJobCheckStatus, storeUpdate]
  exact updateJobCheckStatusMutator_idem ev.JobURL ev.Failed s.store.jobs

/-- Witness for `c5_second_update_is_content_noop` on the concrete `gamma`
state and routine-check event. -/
theorem c5_second_update_is_content_noop_witness :
    (handleJobEvent gammaCheckEvent (handleJobEvent gammaCheckEvent gammaState)).store.jobs =
      (handleJobEvent gammaCheckEvent gammaState).store.jobs
    ∧ (handleJobEvent gammaCheckEvent gammaState).store.writes = gammaState.store.writes + 1
    ∧ (handleJobEvent gammaCheckEvent
        (handleJobEvent gammaCheckEvent gammaState)).store.writes =
        gammaState.store.writes + 2 :=
  c5_second_update_is_content_noop gammaState gammaCheckEvent (Or.inl rfl)

/-- C10: a routine-check store update for a job identifier absent from the
job map is a no-op on the job set: `Config.UpdateJobCheckStatus` returns the
config unchanged with `false`, and the mutator the router passes to
`config.Update` returns the map unchanged — no entry is created, so a router
update can never re-introduce a removed job. -/
theorem c10_update_absent_job_is_noop (c : Config) (u : String) (f : Bool)
    (h : lookupJob c.Jobs u = none) :
    Config.UpdateJobCheckStatus c u f = (c, false)
    ∧ updateJobCheckStatusMutator u f c.Jobs = c.Jobs := by
  constructor
  · unfold Config.UpdateJobCheckStatus
    rw [h]
  · unfold updateJobCheckStatusMutator
    rw [h]

/-- Witness for `c10_update_absent_job_is_noop`: updating a job that is not in
the store's map leaves the config untouched and reports no change. -/
theorem c10_update_absent_job_is_noop_witness :
    Config.UpdateJobCheckStatus { Jobs := [("http://ci/job/alpha", alphaJob)] }
        "http://ci/job/beta" true =
      ({ Jobs := [("http://ci/job/alpha", alphaJob)] }, false)
    ∧ updateJobCheckStatusMutator "http://ci/job/beta" true
        [("http://ci/job/alpha", alphaJob)] = [("http://ci/job/alpha", alphaJob)] :=
  c10_update_absent_job_is_noop { Jobs := [("http://ci/job/alpha", alphaJob)] }
    "http://ci/job/beta" true (by decide)

/-- After a successful reconciliation, the active set's membership coincides
with the freshly loaded store list: kept workers are those still in the list,
spawned workers fill in the rest. -/
theorem mem_reconcile_active (storeKeys active : List String) (u : String) :
    u ∈ (reloadConfigAndJobs (some storeKeys) active).active ↔ u ∈ storeKeys := by
  simp only [reloadConfigAndJobs, List.mem_append, List.mem_filter,
    decide_eq_true_eq]
  by_cases hu : u ∈ active <;> simp [hu]

/-- A worker is stopped by reconciliation exactly when it was active but its
URL is gone from the loaded store list. -/
theorem mem_reconcile_stopped (storeKeys active : List String) (u : String) :
    u ∈ (reloadConfigAndJobs (some storeKeys) active).stopped ↔
      u ∈ active ∧ u ∉ storeKeys := by
  simp [reloadConfigAndJobs, List.mem_filter]

/-- A worker is spawned by reconciliation exactly when its URL is in the
loaded store list but had no active worker. -/
theorem mem_reconcile_spawned (storeKeys active : List String) (u : String) :
    u ∈ (reloadConfigAndJobs (some storeKeys) active).spawned ↔
      u ∈ storeKeys ∧ u ∉ active := by
  simp [reloadConfigAndJobs, List.mem_filter]

/-- C6: reconciliation is idempotent — running it a second time against the
same store list stops no worker, spawns no worker, and leaves the active set
exactly as the first run left it; and a job identifier that is both in the
active set and in the freshly loaded list is never stopped, never respawned,
and stays in the active set. -/
theorem c6_reconcile_idempotent (storeKeys active : List String) :
    (reloadConfigAndJobs (some storeKeys)
      (reloadConfigAndJobs (some storeKeys) active).active).stopped = []
    ∧ (reloadConfigAndJobs (some storeKeys)
        (reloadConfigAndJobs (some storeKeys) active).active).spawned = []
    ∧ (reloadConfigAndJobs (some storeKeys)
        (reloadConfigAndJobs (some storeKeys) active).active).active =
        (reloadConfigAndJobs (some storeKeys) active).active
    ∧ (∀ u, u ∈ active → u ∈ storeKeys →
        u ∉ (reloadConfigAndJobs (some storeKeys) active).stopped
        ∧ u ∉ (reloadConfigAndJobs (some storeKeys) active).spawned
        ∧ u ∈ (reloadConfigAndJobs (some storeKeys) active).active) := by
  have hA : ∀ a, a ∈ (reloadConfigAndJobs (some storeKeys) active).active ↔ a ∈ storeKeys :=
    fun a => mem_reconcile_active storeKeys active a
  refine ⟨?_, ?_, ?_, ?_⟩
  · rw [List.eq_nil_iff_forall_not_mem]
    intro a ha
    rw [mem_reconcile_stopped] at ha
    exact ha.2 ((hA a).mp ha.1)
  · rw [List.eq_nil_iff_forall_not_mem]
    intro a ha
    rw [mem_reconcile_spawned] at ha
    exact ha.2 ((hA a).mpr ha.1)
  · have hkeep : ((reloadConfigAndJobs (some storeKeys) active).active.filter
        (fun u => decide (u ∈ storeKeys))) =
          (reloadConfigAndJobs (some storeKeys) active).active := by
      rw [List.filter_eq_self]
      intro a ha
      simpa using (hA a).mp ha
    have hspawn : (storeKeys.filter
        (fun u => decide (u ∉ (reloadConfigAndJobs (some storeKeys) active).active))) = [] := by
      rw [List.filter_eq_nil_iff]
      intro a ha
      simpa using (hA a).mpr ha
    show (reloadConfigAndJobs (some storeKeys) active).active.filter
          (fun u => decide (u ∈ storeKeys)) ++
        storeKeys.filter
          (fun u => decide (u ∉ (reloadConfigAndJobs (some storeKeys) active).active)) =
      (reloadConfigAndJobs (some storeKeys) active).active
    rw [hkeep, hspawn, List.append_nil]
  · intro u hu hk
    refine ⟨?_, ?_, ?_⟩
    · rw [mem_reconcile_stopped]
      rintro ⟨-, hcon⟩
      exact hcon hk
    · rw [mem_reconcile_spawned]
      rintro ⟨-, hcon⟩
      exact hcon hu
    · exact (hA u).mpr hk

/-- Witness for `c6_reconcile_idempotent` on a concrete store list and active
set sharing the identifier `"http://ci/job/a"`. -/
theorem c6_reconcile_idempotent_witness :
    (reloadConfigAndJobs (some ["http://ci/job/a", "http://ci/job/b"])
      (reloadConfigAndJobs (some ["http://ci/job/a", "http://ci/job/b"])
        ["http://ci/job/a", "http://ci/job/c"]).active).stopped = []
    ∧ (reloadConfigAndJobs (some ["http://ci/job/a", "http://ci/job/b"])
        (reloadConfigAndJobs (some ["http://ci/job/a", "http://ci/job/b"])
          ["http://ci/job/a", "http://ci/job/c"]).active).spawned = []
    ∧ "http://ci/job/a" ∈ (reloadConfigAndJobs (some ["http://ci/job/a", "http://ci/job/b"])
        ["http://ci/job/a", "http://ci/job/c"]).active := by
  have h := c6_reconcile_idempotent ["http://ci/job/a", "http://ci/job/b"]
    ["http://ci/job/a", "http://ci/job/c"]
  exact ⟨h.1, h.2.1,
    (h.2.2.2 "http://ci/job/a" (by decide) (by decide)).2.2⟩

/-- C7: a store-load failure during a post-startup reconciliation skips that
attempt — the controller state (in particular the active set) is returned
unchanged and the loop keeps running, with no worker stopped or spawned —
whereas a failed initial load before the loop starts aborts startup, and a
successful initial load proceeds to the first reconciliation. -/
theorem c7_reconcile_load_failure_skips :
    (∀ s : DaemonState, daemonStep s (DaemonInput.sigReload none) = StepResult.keepRunning s)
    ∧ (∀ active : List String,
        reloadConfigAndJobs none active =
          { active := active, stopped := [], spawned := [] })
    ∧ (∀ r : Option (List String), startDaemonInit none r = none)
    ∧ (∀ keys : List String,
        startDaemonInit (some ()) (some keys) =
          some (reloadConfigAndJobs (some keys) [])) := by
  refine ⟨fun s => rfl, fun active => rfl, fun r => rfl, fun keys => rfl⟩

/-- C8: at a maintenance tick the controller first runs the maintenance hook
(the hook-run counter is incremented on every tick, whether or not the loop
exits) and then evaluates the exit condition: whenever the active set is empty
at a tick, the controller returns cleanly at that very tick, whatever inputs
(if any) would have come afterwards — no external signal is needed. -/
theorem c8_tick_runs_hook_then_exits_when_empty (s : DaemonState)
    (rest : List DaemonInput) (h : s.active = []) :
    daemonRun s (DaemonInput.tick :: rest) = ({ s with hookRuns := s.hookRuns + 1 }, true)
    ∧ (∀ t : DaemonState, (daemonStep t DaemonInput.tick).state.hookRuns = t.hookRuns + 1) := by
  constructor
  · simp [daemonRun, daemonStep, h]
  · intro t
    by_cases ht : t.active.isEmpty <;> simp [daemonStep, StepResult.state, ht]

/-- Witness for `c8_tick_runs_hook_then_exits_when_empty`: a controller with
no active jobs exits at the next tick even though a further event and a reload
are queued behind it. -/
theorem c8_tick_runs_hook_then_exits_when_empty_witness :
    daemonRun { store := { jobs := [], writes := 0 }, active := [],
                notifications := [], hookRuns := 0 }
        [DaemonInput.tick, DaemonInput.jobEvent gammaCheckEvent, DaemonInput.sigReload none] =
      ({ store := { jobs := [], writes := 0 }, active := [],
         notifications := [], hookRuns := 1 }, true) :=
  (c8_tick_runs_hook_then_exits_when_empty
    { store := { jobs := [], writes := 0 }, active := [],
      notifications := [], hookRuns := 0 }
    [DaemonInput.jobEvent gammaCheckEvent, DaemonInput.sigReload none] rfl).1
